import Mathlib

/-!
Shallow embedding of the github-manager tool handlers
(src/github_manager/{repository,automation,workspace,backup}/tools.py).

Remote API calls are modelled by passing their outcome in as data:
a successful fetch is `Except.ok` carrying the listing the hosting API
would return (in the API's order), a failing one is `Except.error`
carrying the caught exception.  The filesystem is modelled explicitly
where a handler reads or mutates it.  String formatting mirrors the
Python f-strings literally.
-/

/-- A caught Python exception as the handlers see it:
`data_message` models `e.data.get('message')` of a `GithubException`
(`none` when the key is absent, and for non-Github exceptions);
`s` models `str(e)`. -/
structure CaughtExc where
  data_message : Option String
  s : String
deriving DecidableEq

/-- `e.data.get('message', str(e))` -/
def CaughtExc.messageOrStr (e : CaughtExc) : String :=
  e.data_message.getD e.s

/-- Python `x or y` on an optional string: `None` and `""` are falsy. -/
def py_or (x : Option String) (dflt : String) : String :=
  match x with
  | none => dflt
  | some s => if s = "" then dflt else s

/-! ## Issues: `list_issues` (automation/tools.py lines 11-55) -/

/-- One entry of `repo.get_issues(...)`: GitHub's issue listing also
yields pull requests, flagged by `issue.pull_request`. -/
structure IssueEntry where
  number : Nat
  title : String
  state : String
  labels : List String
  created_at : String
  user_login : String
  comments : Nat
  html_url : String
  pull_request : Bool
deriving DecidableEq

/-- `", ".join(l.name for l in issue.labels) if issue.labels else "N/A"` -/
def issue_labels_str (issue : IssueEntry) : String :=
  if issue.labels.isEmpty then "N/A" else String.intercalate ", " issue.labels

/-- The f-string appended for one included issue (lines 44-50). -/
def format_issue (issue : IssueEntry) : String :=
  "#" ++ toString issue.number ++ ": " ++ issue.title ++ "\n" ++
  "   State: " ++ issue.state ++ " | Labels: " ++ issue_labels_str issue ++ "\n" ++
  "   Created: " ++ issue.created_at ++ " by " ++ issue.user_login ++ "\n" ++
  "   Comments: " ++ toString issue.comments ++ "\n" ++
  "   URL: " ++ issue.html_url ++ "\n"

/-- The `for i, issue in enumerate(issues)` loop (lines 36-50): `i` is the
position in the full listing; the loop breaks as soon as `i >= limit`,
and only afterwards skips pull requests. -/
def list_issues_collect (limit : Nat) : List IssueEntry → Nat → List String
  | [], _ => []
  | issue :: rest, i =>
    if i ≥ limit then []
    else if issue.pull_request then list_issues_collect limit rest (i + 1)
    else format_issue issue :: list_issues_collect limit rest (i + 1)

/-- `"\n".join(result) if result else "No issues found."` (line 52). -/
def list_issues_body (issues : List IssueEntry) (limit : Nat) : String :=
  let result := list_issues_collect limit issues 0
  if result.isEmpty then "No issues found." else String.intercalate "\n" result

/-- `list_issues` including the `except GithubException` branch (lines 54-55). -/
def list_issues (fetch : Except CaughtExc (List IssueEntry)) (limit : Nat) : String :=
  match fetch with
  | .ok issues => list_issues_body issues limit
  | .error e => "Error: " ++ e.messageOrStr

/-! ## Pull requests: `list_pull_requests` (automation/tools.py lines 125-165) -/

structure PREntry where
  number : Nat
  title : String
  merged : Bool
  state : String
  head_ref : String
  base_ref : String
  created_at : String
  user_login : String
  comments : Nat
  commits : Nat
  html_url : String
deriving DecidableEq

/-- `"✅ Merged" if pr.merged else f"State: {pr.state}"` (line 152). -/
def pr_status (pr : PREntry) : String :=
  if pr.merged then "✅ Merged" else "State: " ++ pr.state

/-- The f-string appended for one pull request (lines 154-160). -/
def format_pr (pr : PREntry) : String :=
  "#" ++ toString pr.number ++ ": " ++ pr.title ++ "\n" ++
  "   " ++ pr_status pr ++ " | " ++ pr.head_ref ++ " → " ++ pr.base_ref ++ "\n" ++
  "   Created: " ++ pr.created_at ++ " by " ++ pr.user_login ++ "\n" ++
  "   Comments: " ++ toString pr.comments ++ " | Commits: " ++ toString pr.commits ++ "\n" ++
  "   URL: " ++ pr.html_url ++ "\n"

/-- The `for i, pr in enumerate(pulls)` loop (lines 148-160). -/
def list_pull_requests_collect (limit : Nat) : List PREntry → Nat → List String
  | [], _ => []
  | pr :: rest, i =>
    if i ≥ limit then []
    else format_pr pr :: list_pull_requests_collect limit rest (i + 1)

/-- Lines 162-165 of automation/tools.py. -/
def list_pull_requests (fetch : Except CaughtExc (List PREntry)) (limit : Nat) : String :=
  match fetch with
  | .ok pulls =>
    let result := list_pull_requests_collect limit pulls 0
    if result.isEmpty then "No pull requests found." else String.intercalate "\n" result
  | .error e => "Error: " ++ e.messageOrStr

/-! ## Repositories: `list_repositories` (repository/tools.py lines 11-55) -/

structure RepoEntry where
  full_name : String
  description : Option String
  stargazers_count : Nat
  forks_count : Nat
  language : Option String
  updated_at : String
  html_url : String
deriving DecidableEq

/-- The f-string for one repository; `i` is the enumerate index (lines 42-50). -/
def format_repo (i : Nat) (repo : RepoEntry) : String :=
  toString (i + 1) ++ ". " ++ repo.full_name ++ "\n" ++
  "   Description: " ++ py_or repo.description "N/A" ++ "\n" ++
  "   Stars: ⭐ " ++ toString repo.stargazers_count ++ " | " ++
  "Forks: 🍴 " ++ toString repo.forks_count ++ " | " ++
  "Language: " ++ py_or repo.language "N/A" ++ "\n" ++
  "   Updated: " ++ repo.updated_at ++ "\n" ++
  "   URL: " ++ repo.html_url ++ "\n"

/-- The `for i, repo in enumerate(repos)` loop (lines 38-50). -/
def list_repositories_collect (limit : Nat) : List RepoEntry → Nat → List String
  | [], _ => []
  | repo :: rest, i =>
    if i ≥ limit then []
    else format_repo i repo :: list_repositories_collect limit rest (i + 1)

/-- Lines 52-55 of repository/tools.py. -/
def list_repositories (fetch : Except CaughtExc (List RepoEntry)) (limit : Nat) : String :=
  match fetch with
  | .ok repos =>
    let result := list_repositories_collect limit repos 0
    if result.isEmpty then "No repositories found." else String.intercalate "\n" result
  | .error e => "Error: " ++ e.messageOrStr

/-! ## Releases: `list_releases` (automation/tools.py lines 245-281) -/

structure ReleaseEntry where
  tag_name : String
  title : Option String
  prerelease : Bool
  draft : Bool
  published_at : Option String
  author_login : Option String
  asset_downloads : List Nat
  html_url : String
deriving DecidableEq

/-- The f-string for one release (lines 267-276). -/
def format_release (r : ReleaseEntry) : String :=
  let pre := if r.prerelease then " (pre-release)" else ""
  let dr := if r.draft then " [DRAFT]" else ""
  r.tag_name ++ ": " ++ py_or r.title r.tag_name ++ dr ++ pre ++ "\n" ++
  "   Published: " ++ py_or r.published_at "Not published" ++ "\n" ++
  "   Author: " ++ r.author_login.getD "N/A" ++ "\n" ++
  "   Downloads: " ++ toString r.asset_downloads.sum ++ "\n" ++
  "   URL: " ++ r.html_url ++ "\n"

/-- The `for i, release in enumerate(releases)` loop (lines 263-276). -/
def list_releases_collect (limit : Nat) : List ReleaseEntry → Nat → List String
  | [], _ => []
  | r :: rest, i =>
    if i ≥ limit then []
    else format_release r :: list_releases_collect limit rest (i + 1)

/-- Lines 278-281 of automation/tools.py. -/
def list_releases (fetch : Except CaughtExc (List ReleaseEntry)) (limit : Nat) : String :=
  match fetch with
  | .ok rels =>
    let result := list_releases_collect limit rels 0
    if result.isEmpty then "No releases found." else String.intercalate "\n" result
  | .error e => "Error: " ++ e.messageOrStr

/-! ## Workflow runs: `list_workflow_runs` (automation/tools.py lines 388-438) -/

structure RunEntry where
  run_number : Nat
  name : String
  conclusion : Option String
  status : String
  head_branch : String
  created_at : String
  html_url : String
deriving DecidableEq

/-- The emoji dictionary lookup `.get(run.conclusion or run.status, "⚪")`
(lines 420-425). -/
def status_emoji (k : String) : String :=
  if k = "success" then "✅"
  else if k = "failure" then "❌"
  else if k = "cancelled" then "🚫"
  else if k = "in_progress" then "🔄"
  else "⚪"

/-- The f-string for one workflow run (lines 427-433). -/
def format_run (run : RunEntry) : String :=
  status_emoji (py_or run.conclusion run.status) ++ " Run #" ++ toString run.run_number ++
    ": " ++ run.name ++ "\n" ++
  "   Status: " ++ py_or run.conclusion run.status ++ "\n" ++
  "   Branch: " ++ run.head_branch ++ "\n" ++
  "   Created: " ++ run.created_at ++ "\n" ++
  "   URL: " ++ run.html_url ++ "\n"

/-- The `for i, run in enumerate(runs)` loop (lines 416-433). -/
def list_workflow_runs_collect (limit : Nat) : List RunEntry → Nat → List String
  | [], _ => []
  | run :: rest, i =>
    if i ≥ limit then []
    else format_run run :: list_workflow_runs_collect limit rest (i + 1)

/-- Lines 435-438 of automation/tools.py. -/
def list_workflow_runs (fetch : Except CaughtExc (List RunEntry)) (limit : Nat) : String :=
  match fetch with
  | .ok runs =>
    let result := list_workflow_runs_collect limit runs 0
    if result.isEmpty then "No workflow runs found." else String.intercalate "\n" result
  | .error e => "Error: " ++ e.messageOrStr

/-! ## `update_repository` (repository/tools.py lines 148-196)

The handler issues one `repo.edit(...)` call per parameter that was
supplied (not `None`); `EditField` records each remote mutation. -/

structure UpdateArgs where
  description : Option String
  homepage : Option String
  priv : Option Bool
  has_issues : Option Bool
  has_wiki : Option Bool
  has_projects : Option Bool
  default_branch : Option String
deriving DecidableEq

/-- One `repo.edit(...)` call, tagged with the keyword argument it passed.
(`priv` stands for the Python parameter `private`, a Lean keyword.) -/
inductive EditField where
  | description (v : String)
  | homepage (v : String)
  | priv (v : Bool)
  | has_issues (v : Bool)
  | has_wiki (v : Bool)
  | has_projects (v : Bool)
  | default_branch (v : String)
deriving DecidableEq

/-- Helper mirroring `if x is not None: repo.edit(field=x)`. -/
def edit_if {α : Type} (x : Option α) (mk : α → EditField) : List EditField :=
  match x with
  | none => []
  | some v => [mk v]

/-- The sequence of `repo.edit` calls performed by `update_repository`
(lines 178-191), in source order. -/
def update_repository_edits (a : UpdateArgs) : List EditField :=
  edit_if a.description EditField.description ++
  edit_if a.homepage EditField.homepage ++
  edit_if a.priv EditField.priv ++
  edit_if a.has_issues EditField.has_issues ++
  edit_if a.has_wiki EditField.has_wiki ++
  edit_if a.has_projects EditField.has_projects ++
  edit_if a.default_branch EditField.default_branch

/-- `update_repository`: on a successful `get_repo` it performs the edit
sequence and returns the success text (line 193); a caught
`GithubException` yields the error text and no edits (lines 195-196). -/
def update_repository (repo_name : String) (a : UpdateArgs)
    (fetch : Except CaughtExc Unit) : List EditField × String :=
  match fetch with
  | .error e => ([], "Error: " ++ e.messageOrStr)
  | .ok _ => (update_repository_edits a, "Repository " ++ repo_name ++ " updated successfully!")

/-! ## `delete_repository` (repository/tools.py lines 199-221)

The remote is modelled as the list of repository full names the token
can see; `repo.delete()` removes the named repository. `fetch` models
`client.get_repo(repo_name)`, which raises when the repository is
missing or inaccessible. -/

def delete_repository (repo_name : String) (confirm : Bool)
    (fetch : Except CaughtExc Unit) (remote : List String) : List String × String :=
  if !confirm then
    (remote, "⚠️  WARNING: This will permanently delete " ++ repo_name ++
      "!\nSet confirm=True to proceed.")
  else
    match fetch with
    | .error e => (remote, "Error: " ++ e.messageOrStr)
    | .ok _ => (remote.erase repo_name,
        "Repository " ++ repo_name ++ " has been deleted.")

/-! ## Workspace model and `delete_workspace_repo`
(workspace/tools.py lines 239-266) -/

/-- An immediate subdirectory of the workspace root: its name and whether
it contains a `.git` marker. -/
structure WsDir where
  name : String
  has_git : Bool
deriving DecidableEq

/-- `delete_workspace_repo`: confirmation gate (lines 249-250), existence
check (lines 255-256), `.git` check (lines 258-259), then
`shutil.rmtree(repo_path)` (line 262), modelled as erasing the directory. -/
def delete_workspace_repo (repo_name : String) (confirm : Bool)
    (ws : List WsDir) : List WsDir × String :=
  if !confirm then
    (ws, "⚠️  WARNING: This will permanently delete " ++ repo_name ++
      " from workspace!\nSet confirm=True to proceed.")
  else
    match ws.find? (fun d => d.name = repo_name) with
    | none => (ws, "Error: Repository " ++ repo_name ++ " not found in workspace")
    | some d =>
      if !d.has_git then
        (ws, "Error: " ++ repo_name ++ " is not a git repository")
      else
        (ws.eraseP (fun d => d.name = repo_name),
          "Repository " ++ repo_name ++ " deleted from workspace")

/-! ## `switch_branch` (workspace/tools.py lines 303-333) -/

/-- The state of a git working copy that `switch_branch` inspects. -/
structure WorkTree where
  is_dirty : Bool
  active_branch : String
deriving DecidableEq

/-- `switch_branch`: path-existence check (lines 320-321), dirty check
(lines 325-326), then `repo.git.checkout(branch_name)` (line 328), whose
outcome is passed in as `co` (a failure is caught by the handler's
`except Exception` and rendered with `str(e)`, lines 332-333).
`path_str` is the full path printed in the not-found error, `path_name`
the final component printed on success. -/
def switch_branch (path_exists : Bool) (wt : WorkTree) (branch_name : String)
    (path_str path_name : String) (co : Except CaughtExc Unit) : WorkTree × String :=
  if !path_exists then
    (wt, "Error: Repository not found at " ++ path_str)
  else if wt.is_dirty then
    (wt, "Error: Repository has uncommitted changes. Commit or stash them first.")
  else
    match co with
    | .error e => (wt, "Error: " ++ e.s)
    | .ok _ => ({ wt with active_branch := branch_name },
        "Switched to branch \x27" ++ branch_name ++ "\x27 in " ++ path_name)

/-! ## `clone_repository` (workspace/tools.py lines 59-100) -/

/-- The repository attributes `clone_repository` reads after `get_repo`. -/
structure RepoUrls where
  name : String
  full_name : String
  ssh_url : String
  clone_url : String
deriving DecidableEq

/-- `clone_repository`: `fetch` models `client.get_repo`; the filesystem
is the list of existing paths; `cloneRes` models `Repo.clone_from`.
Both `GithubException` and `GitCommandError` are caught together and
rendered with `str(e)` (lines 99-100). -/
def clone_repository (fetch : Except CaughtExc RepoUrls) (use_ssh : Bool)
    (destination : Option String) (workspace_dir : String)
    (fs : List String) (cloneRes : Except CaughtExc Unit) : List String × String :=
  match fetch with
  | .error e => (fs, "Error: " ++ e.s)
  | .ok repo =>
    let dest_path :=
      match destination with
      | some d => d
      | none => workspace_dir ++ "/" ++ repo.name
    if fs.contains dest_path then
      (fs, "Error: Directory " ++ dest_path ++ " already exists")
    else
      let clone_url := if use_ssh then repo.ssh_url else repo.clone_url
      match cloneRes with
      | .error e => (fs, "Error: " ++ e.s)
      | .ok _ => (fs ++ [dest_path],
          "Repository cloned successfully!\n" ++
          "Repository: " ++ repo.full_name ++ "\n" ++
          "Path: " ++ dest_path ++ "\n" ++
          "URL: " ++ clone_url ++ "\n")

/-! ## `backup_repository` (backup/tools.py lines 24-173)

The whole handler body sits in one `try`; `except (GithubException,
Exception)` catches every failure and renders `str(e)` (lines 172-173).
The filesystem is a list of written entries: the mirror clone and the
three-plus-one metadata documents.  Each remote enumeration
(`repo.get_issues(state="all")`, `repo.get_pulls(state="all")`,
`repo.get_releases()`) is modelled by an `Except` carried on the
repository data: a failure there aborts the handler before the
corresponding json document is written, leaving earlier writes in place.
The serialized json payloads are carried as the data they came from.
The check-mark prefix reproduces the source file's literal bytes. -/

/-- A document written into the backup directory. -/
inductive BackupDoc where
  | mirror (clone_url : String)
  | repoInfo (full_name : String)
  | issues (data : List IssueEntry)
  | pulls (data : List PREntry)
  | releases (data : List ReleaseEntry)
deriving DecidableEq

/-- The repository attributes and enumerations `backup_repository` uses. -/
structure BackupData where
  name : String
  full_name : String
  clone_url : String
  issuesFetch : Except CaughtExc (List IssueEntry)
  pullsFetch : Except CaughtExc (List PREntry)
  releasesFetch : Except CaughtExc (List ReleaseEntry)

def backup_repository (fetch : Except CaughtExc BackupData)
    (cloneRes : Except CaughtExc Unit) (include_metadata : Bool)
    (backup_dir timestamp : String) (fs : List (String × BackupDoc)) :
    List (String × BackupDoc) × String :=
  match fetch with
  | .error e => (fs, "Error: " ++ e.s)
  | .ok repo =>
    let repo_backup_dir := backup_dir ++ "/" ++ repo.name ++ "/" ++ timestamp
    let clone_path := repo_backup_dir ++ "/repository"
    match cloneRes with
    | .error e => (fs, "Error: " ++ e.s)
    | .ok _ =>
      let fs1 := fs ++ [(clone_path, BackupDoc.mirror repo.clone_url)]
      let result_parts := [
        "Repository backup completed!",
        "Repository: " ++ repo.full_name,
        "Backup path: " ++ repo_backup_dir,
        "",
        "âœ… Repository cloned (mirror)"]
      if include_metadata then
        let metadata_dir := repo_backup_dir ++ "/metadata"
        let fs2 := fs1 ++ [(metadata_dir ++ "/repository.json", BackupDoc.repoInfo repo.full_name)]
        let parts2 := result_parts ++ ["âœ… Repository info backed up"]
        match repo.issuesFetch with
        | .error e => (fs2, "Error: " ++ e.s)
        | .ok issuesAll =>
          let issues_data := issuesAll.filter (fun i => !i.pull_request)
          let fs3 := fs2 ++ [(metadata_dir ++ "/issues.json", BackupDoc.issues issues_data)]
          let parts3 := parts2 ++ ["âœ… " ++ toString issues_data.length ++ " issues backed up"]
          match repo.pullsFetch with
          | .error e => (fs3, "Error: " ++ e.s)
          | .ok prs_data =>
            let fs4 := fs3 ++ [(metadata_dir ++ "/pull_requests.json", BackupDoc.pulls prs_data)]
            let parts4 := parts3 ++
              ["âœ… " ++ toString prs_data.length ++ " pull requests backed up"]
            match repo.releasesFetch with
            | .error e => (fs4, "Error: " ++ e.s)
            | .ok releases_data =>
              let fs5 := fs4 ++
                [(metadata_dir ++ "/releases.json", BackupDoc.releases releases_data)]
              let parts5 := parts4 ++
                ["âœ… " ++ toString releases_data.length ++ " releases backed up"]
              (fs5, String.intercalate "\n" parts5)
      else (fs1, String.intercalate "\n" result_parts)

/-! ## `restore_repository` (backup/tools.py lines 292-331) -/

/-- One `Repo.clone_from(src, dest, mirror=...)` invocation. -/
structure CloneOp where
  src : String
  dest : String
  mirror : Bool
deriving DecidableEq

/-- `restore_repository`: existence checks on the backup path (lines
310-311), its `repository` subdirectory (lines 313-315) and the
destination (lines 317-318), then `Repo.clone_from(repo_path, dest,
mirror=False)` (line 321).  The filesystem is the list of existing
paths; the middle component records the clone calls performed. -/
def restore_repository (backup_path destination : String) (fs : List String)
    (cloneRes : Except CaughtExc Unit) : List String × List CloneOp × String :=
  if !fs.contains backup_path then
    (fs, [], "Error: Backup not found at " ++ backup_path)
  else
    let repo_path := backup_path ++ "/repository"
    if !fs.contains repo_path then
      (fs, [], "Error: Repository backup not found in " ++ backup_path)
    else if fs.contains destination then
      (fs, [], "Error: Destination " ++ destination ++ " already exists")
    else
      match cloneRes with
      | .error e => (fs, [⟨repo_path, destination, false⟩], "Error: " ++ e.s)
      | .ok _ => (fs ++ [destination], [⟨repo_path, destination, false⟩],
          "Repository restored successfully!\n" ++
          "Backup: " ++ backup_path ++ "\n" ++
          "Destination: " ++ destination ++ "\n\n" ++
          "Note: Metadata (issues, PRs) are in " ++ backup_path ++ "/metadata" ++ "\n")

/-- Number of parameters supplied (not `None`) in an `update_repository`
call — the mutation count the amended per-field reading predicts. -/
def UpdateArgs.providedCount (a : UpdateArgs) : Nat :=
  (if a.description.isSome then 1 else 0) +
  (if a.homepage.isSome then 1 else 0) +
  (if a.priv.isSome then 1 else 0) +
  (if a.has_issues.isSome then 1 else 0) +
  (if a.has_wiki.isSome then 1 else 0) +
  (if a.has_projects.isSome then 1 else 0) +
  (if a.default_branch.isSome then 1 else 0)

/-! ## Helper lemmas about the listing loops -/

/-- The enumerate index, not the included count, is compared against
`limit` in `list_issues`: starting at index `i`, the collected entries
are exactly the non-pull-request entries among the next `limit - i`
listing entries. -/
theorem list_issues_collect_length_eq (limit : Nat) (l : List IssueEntry) (i : Nat) :
    (list_issues_collect limit l i).length =
      ((l.take (limit - i)).filter (fun e => !e.pull_request)).length := by
  induction l generalizing i with
  | nil => simp [list_issues_collect]
  | cons issue rest ih =>
    by_cases h : i ≥ limit
    · have hz : limit - i = 0 := Nat.sub_eq_zero_of_le h
      simp [list_issues_collect, h, hz]
    · have hpos : limit - i = (limit - (i + 1)) + 1 := by omega
      rw [hpos]
      simp only [list_issues_collect, if_neg h, List.take_succ_cons, List.filter_cons]
      cases hpr : issue.pull_request with
      | true => simpa [hpr] using ih (i + 1)
      | false => simpa [hpr] using ih (i + 1)

theorem list_repositories_collect_length_le (limit : Nat) (l : List RepoEntry) (i : Nat) :
    (list_repositories_collect limit l i).length ≤ limit - i := by
  induction l generalizing i with
  | nil => simp [list_repositories_collect]
  | cons repo rest ih =>
    by_cases h : i ≥ limit
    · simp [list_repositories_collect, h]
    · have := ih (i + 1)
      simp only [list_repositories_collect, if_neg h, List.length_cons]
      omega

theorem list_pull_requests_collect_length_le (limit : Nat) (l : List PREntry) (i : Nat) :
    (list_pull_requests_collect limit l i).length ≤ limit - i := by
  induction l generalizing i with
  | nil => simp [list_pull_requests_collect]
  | cons pr rest ih =>
    by_cases h : i ≥ limit
    · simp [list_pull_requests_collect, h]
    · have := ih (i + 1)
      simp only [list_pull_requests_collect, if_neg h, List.length_cons]
      omega

theorem list_releases_collect_length_le (limit : Nat) (l : List ReleaseEntry) (i : Nat) :
    (list_releases_collect limit l i).length ≤ limit - i := by
  induction l generalizing i with
  | nil => simp [list_releases_collect]
  | cons r rest ih =>
    by_cases h : i ≥ limit
    · simp [list_releases_collect, h]
    · have := ih (i + 1)
      simp only [list_releases_collect, if_neg h, List.length_cons]
      omega

theorem list_workflow_runs_collect_length_le (limit : Nat) (l : List RunEntry) (i : Nat) :
    (list_workflow_runs_collect limit l i).length ≤ limit - i := by
  induction l generalizing i with
  | nil => simp [list_workflow_runs_collect]
  | cons run rest ih =>
    by_cases h : i ≥ limit
    · simp [list_workflow_runs_collect, h]
    · have := ih (i + 1)
      simp only [list_workflow_runs_collect, if_neg h, List.length_cons]
      omega

/-- With `limit = 0` every loop breaks on its first iteration. -/
theorem list_issues_collect_zero (l : List IssueEntry) (i : Nat) :
    list_issues_collect 0 l i = [] := by
  cases l <;> simp [list_issues_collect]

theorem list_repositories_collect_zero (l : List RepoEntry) (i : Nat) :
    list_repositories_collect 0 l i = [] := by
  cases l <;> simp [list_repositories_collect]

theorem list_pull_requests_collect_zero (l : List PREntry) (i : Nat) :
    list_pull_requests_collect 0 l i = [] := by
  cases l <;> simp [list_pull_requests_collect]

theorem list_releases_collect_zero (l : List ReleaseEntry) (i : Nat) :
    list_releases_collect 0 l i = [] := by
  cases l <;> simp [list_releases_collect]

theorem list_workflow_runs_collect_zero (l : List RunEntry) (i : Nat) :
    list_workflow_runs_collect 0 l i = [] := by
  cases l <;> simp [list_workflow_runs_collect]

/-! ## Claim theorems -/

/-- C8: for every list-style handler (repositories, issues, pull
requests, releases, workflow runs) and every non-negative limit, the
number of items included in the formatted result never exceeds the
supplied limit. -/
theorem list_handlers_never_exceed_limit (limit : Nat) (rs : List RepoEntry)
    (iss : List IssueEntry) (ps : List PREntry) (rls : List ReleaseEntry)
    (rus : List RunEntry) :
    (list_repositories_collect limit rs 0).length ≤ limit ∧
    (list_issues_collect limit iss 0).length ≤ limit ∧
    (list_pull_requests_collect limit ps 0).length ≤ limit ∧
    (list_releases_collect limit rls 0).length ≤ limit ∧
    (list_workflow_runs_collect limit rus 0).length ≤ limit := by
  refine ⟨?_, ?_, ?_, ?_, ?_⟩
  · simpa using list_repositories_collect_length_le limit rs 0
  · calc (list_issues_collect limit iss 0).length
        = ((iss.take (limit - 0)).filter (fun e => !e.pull_request)).length :=
          list_issues_collect_length_eq limit iss 0
      _ ≤ (iss.take (limit - 0)).length := List.length_filter_le _ _
      _ ≤ limit := by rw [List.length_take]; omega
  · simpa using list_pull_requests_collect_length_le limit ps 0
  · simpa using list_releases_collect_length_le limit rls 0
  · simpa using list_workflow_runs_collect_length_le limit rus 0

/-- C9: whenever a list-style handler includes zero qualifying items
(in particular when `limit = 0`), it returns its fixed literal sentinel
phrase rather than an empty text block. -/
theorem list_handlers_empty_sentinel (limit : Nat) (rs : List RepoEntry)
    (iss : List IssueEntry) (ps : List PREntry) (rls : List ReleaseEntry)
    (rus : List RunEntry) :
    (list_repositories_collect limit rs 0 = [] →
      list_repositories (.ok rs) limit = "No repositories found.") ∧
    list_repositories (.ok rs) 0 = "No repositories found." ∧
    (list_issues_collect limit iss 0 = [] →
      list_issues (.ok iss) limit = "No issues found.") ∧
    list_issues (.ok iss) 0 = "No issues found." ∧
    (list_pull_requests_collect limit ps 0 = [] →
      list_pull_requests (.ok ps) limit = "No pull requests found.") ∧
    list_pull_requests (.ok ps) 0 = "No pull requests found." ∧
    (list_releases_collect limit rls 0 = [] →
      list_releases (.ok rls) limit = "No releases found.") ∧
    list_releases (.ok rls) 0 = "No releases found." ∧
    (list_workflow_runs_collect limit rus 0 = [] →
      list_workflow_runs (.ok rus) limit = "No workflow runs found.") ∧
    list_workflow_runs (.ok rus) 0 = "No workflow runs found." := by
  refine ⟨fun h => ?_, ?_, fun h => ?_, ?_, fun h => ?_, ?_, fun h => ?_, ?_, fun h => ?_, ?_⟩
  · simp [list_repositories, h]
  · simp [list_repositories, list_repositories_collect_zero]
  · simp [list_issues, list_issues_body, h]
  · simp [list_issues, list_issues_body, list_issues_collect_zero]
  · simp [list_pull_requests, h]
  · simp [list_pull_requests, list_pull_requests_collect_zero]
  · simp [list_releases, h]
  · simp [list_releases, list_releases_collect_zero]
  · simp [list_workflow_runs, h]
  · simp [list_workflow_runs, list_workflow_runs_collect_zero]

/-- C9 witness: the sentinel theorem applied to empty listings at
`limit = 5` and at `limit = 0`. -/
theorem list_handlers_empty_sentinel_witness :
    list_repositories (.ok []) 5 = "No repositories found." ∧
    list_issues (.ok []) 0 = "No issues found." := by
  have h := list_handlers_empty_sentinel 5 [] [] [] [] []
  exact ⟨h.1 rfl, h.2.2.2.1⟩

/-- C1 (counterexample): `list_issues` with `limit = 2` on a listing of
one open pull request followed by three open issues returns only 1
formatted issue entry, not 2 — the pull request, although excluded from
the result, consumed one of the two enumerate positions the loop
examines.  This falsifies "the result contains exactly 2 formatted issue
entries … regardless of where the pull request appears". -/
theorem list_issues_pr_position_counterexample :
    (list_issues_collect 2
      [⟨10, "pr", "open", [], "c", "u", 0, "url", true⟩,
       ⟨1, "a", "open", [], "c", "u", 0, "url", false⟩,
       ⟨2, "b", "open", [], "c", "u", 0, "url", false⟩,
       ⟨3, "c", "open", [], "c", "u", 0, "url", false⟩] 0).length = 1 ∧
    ¬ ((list_issues_collect 2
      [⟨10, "pr", "open", [], "c", "u", 0, "url", true⟩,
       ⟨1, "a", "open", [], "c", "u", 0, "url", false⟩,
       ⟨2, "b", "open", [], "c", "u", 0, "url", false⟩,
       ⟨3, "c", "open", [], "c", "u", 0, "url", false⟩] 0).length = 2) := by
  constructor
  · rfl
  · intro h
    exact absurd h (by decide)

/-- C1 (amended): pull requests filtered out of an issue listing DO
count against `limit`: the loop examines exactly the first `limit`
listing entries and includes precisely the non-pull-request entries
among them.  In the concrete scenario (three open issues, one open pull
request, `limit = 2`) the result has exactly 2 entries when the pull
request appears after the first two listing positions. -/
theorem list_issues_limit_counts_filtered_entries (issues : List IssueEntry) (limit : Nat) :
    (list_issues_collect limit issues 0).length =
      ((issues.take limit).filter (fun e => !e.pull_request)).length ∧
    (list_issues_collect 2
      [⟨1, "a", "open", [], "c", "u", 0, "url", false⟩,
       ⟨2, "b", "open", [], "c", "u", 0, "url", false⟩,
       ⟨3, "c", "open", [], "c", "u", 0, "url", false⟩,
       ⟨10, "pr", "open", [], "c", "u", 0, "url", true⟩] 0).length = 2 := by
  constructor
  · simpa using list_issues_collect_length_eq limit issues 0
  · rfl

theorem edit_if_length {α : Type} (x : Option α) (mk : α → EditField) :
    (edit_if x mk).length = if x.isSome then 1 else 0 := by
  cases x <;> rfl

/-- C5 (counterexample): a successful `update_repository` call supplying
both `description` and `homepage` performs 2 remote mutations (two
`repo.edit` calls), not exactly one; a call supplying no field performs
0 yet still reports success. -/
theorem update_repository_mutation_count_counterexample :
    (update_repository "o/r" ⟨some "d", some "h", none, none, none, none, none⟩
        (.ok ())).1.length = 2 ∧
    ¬ ((update_repository "o/r" ⟨some "d", some "h", none, none, none, none, none⟩
        (.ok ())).1.length = 1) ∧
    (update_repository "o/r" ⟨none, none, none, none, none, none, none⟩
        (.ok ())).1.length = 0 := by
  refine ⟨rfl, ?_, rfl⟩
  intro h
  exact absurd h (by decide)

/-- C5 (amended): a successful `update_repository` call performs exactly
one remote mutation per supplied (non-`None`) parameter — `n` supplied
fields give `n` `repo.edit` calls, so the count is 1 only for
single-field calls.  (Single-mutation handlers such as the delete
handlers are covered by the confirmation-gate theorem.) -/
theorem update_repository_one_edit_per_supplied_field (rn : String) (a : UpdateArgs) :
    (update_repository rn a (.ok ())).1.length = a.providedCount := by
  obtain ⟨d, h, p, hi, hw, hp, db⟩ := a
  simp only [update_repository, update_repository_edits, UpdateArgs.providedCount,
    edit_if_length, List.length_append]

/-- C4: with `confirm` false (its default, so also when absent) both
destructive handlers mutate nothing and return the warning string
telling the caller to resend with `confirm=True`; with `confirm=true`
each performs exactly one deletion (the state loses exactly the one
named entry). -/
theorem destructive_handlers_confirm_gate (repo_name : String)
    (fetch : Except CaughtExc Unit) (remote : List String) (ws : List WsDir) (d : WsDir) :
    delete_repository repo_name false fetch remote =
      (remote, "⚠️  WARNING: This will permanently delete " ++ repo_name ++
        "!\nSet confirm=True to proceed.") ∧
    delete_workspace_repo repo_name false ws =
      (ws, "⚠️  WARNING: This will permanently delete " ++ repo_name ++
        " from workspace!\nSet confirm=True to proceed.") ∧
    (repo_name ∈ remote →
      (delete_repository repo_name true (.ok ()) remote).1 = remote.erase repo_name ∧
      (delete_repository repo_name true (.ok ()) remote).1.length = remote.length - 1) ∧
    (ws.find? (fun e => e.name = repo_name) = some d → d.has_git = true →
      (delete_workspace_repo repo_name true ws).1 =
        ws.eraseP (fun e => e.name = repo_name) ∧
      (delete_workspace_repo repo_name true ws).1.length = ws.length - 1) := by
  refine ⟨rfl, rfl, fun hm => ⟨rfl, ?_⟩, fun hf hg => ⟨?_, ?_⟩⟩
  · simpa [delete_repository] using List.length_erase_of_mem hm
  · simp [delete_workspace_repo, hf, hg]
  · have hmem := List.mem_of_find?_eq_some hf
    have hp := List.find?_some hf
    simpa [delete_workspace_repo, hf, hg] using List.length_eraseP_of_mem hmem hp

/-- C4 witness: the gate theorem at a two-repository remote and a
one-directory workspace. -/
theorem destructive_handlers_confirm_gate_witness :
    delete_repository "o/r" false (.ok ()) ["o/r", "o/s"] =
      (["o/r", "o/s"], "⚠️  WARNING: This will permanently delete " ++ "o/r" ++
        "!\nSet confirm=True to proceed.") ∧
    (delete_repository "o/r" true (.ok ()) ["o/r", "o/s"]).1 = ["o/s"] ∧
    (delete_workspace_repo "o/r" true [⟨"o/r", true⟩]).1 = [] := by
  have h := destructive_handlers_confirm_gate "o/r" (.ok ())
    ["o/r", "o/s"] [⟨"o/r", true⟩] ⟨"o/r", true⟩
  refine ⟨h.1, ?_, ?_⟩
  · exact ((h.2.2.1 (by decide)).1).trans (by decide)
  · exact ((h.2.2.2 rfl rfl).1).trans (by decide)

/-- C10: with `confirm=true`, `delete_workspace_repo` returns an error
and deletes nothing when the directory is absent from the workspace, or
present without a `.git` marker; it removes the directory only when it
exists and carries the git metadata marker. -/
theorem delete_workspace_repo_requires_git_dir (repo_name : String)
    (ws : List WsDir) (d : WsDir) :
    (ws.find? (fun e => e.name = repo_name) = none →
      delete_workspace_repo repo_name true ws =
        (ws, "Error: Repository " ++ repo_name ++ " not found in workspace")) ∧
    (ws.find? (fun e => e.name = repo_name) = some d → d.has_git = false →
      delete_workspace_repo repo_name true ws =
        (ws, "Error: " ++ repo_name ++ " is not a git repository")) ∧
    (ws.find? (fun e => e.name = repo_name) = some d → d.has_git = true →
      delete_workspace_repo repo_name true ws =
        (ws.eraseP (fun e => e.name = repo_name),
          "Repository " ++ repo_name ++ " deleted from workspace")) := by
  refine ⟨fun h => ?_, fun h hg => ?_, fun h hg => ?_⟩
  · simp [delete_workspace_repo, h]
  · simp [delete_workspace_repo, h, hg]
  · simp [delete_workspace_repo, h, hg]

/-- C10 witness: the safety theorem at a workspace holding one plain
directory and one git working copy. -/
theorem delete_workspace_repo_requires_git_dir_witness :
    delete_workspace_repo "gone" true [⟨"plain", false⟩, ⟨"repo", true⟩] =
      ([⟨"plain", false⟩, ⟨"repo", true⟩],
        "Error: Repository " ++ "gone" ++ " not found in workspace") ∧
    delete_workspace_repo "plain" true [⟨"plain", false⟩, ⟨"repo", true⟩] =
      ([⟨"plain", false⟩, ⟨"repo", true⟩],
        "Error: " ++ "plain" ++ " is not a git repository") ∧
    (delete_workspace_repo "repo" true [⟨"plain", false⟩, ⟨"repo", true⟩]).1 =
      [⟨"plain", false⟩] := by
  refine ⟨?_, ?_, ?_⟩
  · exact (delete_workspace_repo_requires_git_dir "gone"
      [⟨"plain", false⟩, ⟨"repo", true⟩] ⟨"plain", false⟩).1 (by decide)
  · exact (delete_workspace_repo_requires_git_dir "plain"
      [⟨"plain", false⟩, ⟨"repo", true⟩] ⟨"plain", false⟩).2.1 (by decide) rfl
  · have h := (delete_workspace_repo_requires_git_dir "repo"
      [⟨"plain", false⟩, ⟨"repo", true⟩] ⟨"repo", true⟩).2.2 (by decide) rfl
    rw [h]
    decide

/-- C6: `switch_branch` on an existing working copy with uncommitted
modifications performs no checkout (the result is the same for every
checkout outcome `co`), returns the literal uncommitted-changes error,
and leaves the active branch unchanged. -/
theorem switch_branch_dirty_refusal (wt : WorkTree)
    (branch_name path_str path_name : String) (co : Except CaughtExc Unit)
    (hd : wt.is_dirty = true) :
    switch_branch true wt branch_name path_str path_name co =
      (wt, "Error: Repository has uncommitted changes. Commit or stash them first.") := by
  simp [switch_branch, hd]

/-- C6 witness: the refusal theorem on a dirty working copy sitting on
branch `main`. -/
theorem switch_branch_dirty_refusal_witness :
    switch_branch true ⟨true, "main"⟩ "dev" "/w/r" "r" (.ok ()) =
      (⟨true, "main"⟩,
        "Error: Repository has uncommitted changes. Commit or stash them first.") :=
  switch_branch_dirty_refusal ⟨true, "main"⟩ "dev" "/w/r" "r" (.ok ()) rfl

/-- C7: `restore_repository` returns an error and neither creates nor
overwrites the destination when the backup path is missing, when its
`repository` subdirectory is missing, or when the destination already
exists; only when all three validations pass does it perform a single
non-mirror clone from the local mirror into the destination. -/
theorem restore_repository_validations (backup_path destination : String)
    (fs : List String) (cloneRes : Except CaughtExc Unit) :
    (backup_path ∉ fs →
      restore_repository backup_path destination fs cloneRes =
        (fs, [], "Error: Backup not found at " ++ backup_path)) ∧
    (backup_path ∈ fs → (backup_path ++ "/repository") ∉ fs →
      restore_repository backup_path destination fs cloneRes =
        (fs, [], "Error: Repository backup not found in " ++ backup_path)) ∧
    (backup_path ∈ fs → (backup_path ++ "/repository") ∈ fs → destination ∈ fs →
      restore_repository backup_path destination fs cloneRes =
        (fs, [], "Error: Destination " ++ destination ++ " already exists")) ∧
    (backup_path ∈ fs → (backup_path ++ "/repository") ∈ fs → destination ∉ fs →
      (restore_repository backup_path destination fs cloneRes).2.1 =
        [⟨backup_path ++ "/repository", destination, false⟩] ∧
      (cloneRes = .ok () →
        restore_repository backup_path destination fs cloneRes =
          (fs ++ [destination], [⟨backup_path ++ "/repository", destination, false⟩],
            "Repository restored successfully!\n" ++
            "Backup: " ++ backup_path ++ "\n" ++
            "Destination: " ++ destination ++ "\n\n" ++
            "Note: Metadata (issues, PRs) are in " ++ backup_path ++ "/metadata" ++ "\n"))) := by
  refine ⟨fun h1 => ?_, fun h1 h2 => ?_, fun h1 h2 h3 => ?_, fun h1 h2 h3 => ⟨?_, fun hc => ?_⟩⟩
  · simp [restore_repository, h1]
  · simp [restore_repository, h1, h2]
  · simp [restore_repository, h1, h2, h3]
  · cases cloneRes <;> simp [restore_repository, h1, h2, h3]
  · subst hc
    simp [restore_repository, h1, h2, h3]

/-- C7 witness: the validation theorem on a filesystem holding a backup
with its mirror, restoring to a fresh destination, and on one missing
the mirror subdirectory. -/
theorem restore_repository_validations_witness :
    restore_repository "b" "d" ["b", "b/repository"] (.ok ()) =
      (["b", "b/repository", "d"], [⟨"b" ++ "/repository", "d", false⟩],
        "Repository restored successfully!\n" ++
        "Backup: " ++ "b" ++ "\n" ++
        "Destination: " ++ "d" ++ "\n\n" ++
        "Note: Metadata (issues, PRs) are in " ++ "b" ++ "/metadata" ++ "\n") ∧
    restore_repository "b" "d" ["b"] (.ok ()) =
      (["b"], [], "Error: Repository backup not found in " ++ "b") := by
  constructor
  · exact ((restore_repository_validations "b" "d" ["b", "b/repository"]
      (.ok ())).2.2.2 (by decide) (by decide) (by decide)).2 rfl
  · exact (restore_repository_validations "b" "d" ["b"] (.ok ())).2.1
      (by decide) (by decide)

/-- C2 (counterexample): when the releases serialization step of
`backup_repository` fails, the documents written by the earlier steps
(mirror clone, repository info, issues, pull requests) do remain on
disk, but the returned text is only `"Error: " + str(e)` — the per-step
completion marker `"backed up"` does not occur in it, so it does not
enumerate which steps completed. -/
theorem backup_releases_failure_counterexample :
    (backup_repository
        (.ok ⟨"w", "a/w", "cu", .ok [], .ok [], .error ⟨none, "boom"⟩⟩)
        (.ok ()) true "b" "t" []).2 = "Error: boom" ∧
    ¬ ("backed up".data <:+: (backup_repository
        (.ok ⟨"w", "a/w", "cu", .ok [], .ok [], .error ⟨none, "boom"⟩⟩)
        (.ok ()) true "b" "t" []).2.data) ∧
    (backup_repository
        (.ok ⟨"w", "a/w", "cu", .ok [], .ok [], .error ⟨none, "boom"⟩⟩)
        (.ok ()) true "b" "t" []).1 =
      [("b/w/t/repository", .mirror "cu"),
       ("b/w/t/metadata/repository.json", .repoInfo "a/w"),
       ("b/w/t/metadata/issues.json", .issues []),
       ("b/w/t/metadata/pull_requests.json", .pulls [])] := by
  refine ⟨rfl, by decide, by decide⟩

/-- C2 (amended): if the releases step of `backup_repository` fails, the
structured documents already written by the earlier steps (mirror clone,
repository info, issues, pull requests) remain on disk, but the text
returned is only `"Error: " + str(e)`; it does not enumerate the steps
completed before the failure. -/
theorem backup_partial_failure_keeps_earlier_files
    (name full_name curl : String) (iss : List IssueEntry) (prs : List PREntry)
    (e : CaughtExc) (backup_dir timestamp : String) (fs : List (String × BackupDoc)) :
    backup_repository (.ok ⟨name, full_name, curl, .ok iss, .ok prs, .error e⟩)
        (.ok ()) true backup_dir timestamp fs =
      (fs ++
        [(backup_dir ++ "/" ++ name ++ "/" ++ timestamp ++ "/repository", .mirror curl),
         (backup_dir ++ "/" ++ name ++ "/" ++ timestamp ++ "/metadata" ++ "/repository.json",
           .repoInfo full_name),
         (backup_dir ++ "/" ++ name ++ "/" ++ timestamp ++ "/metadata" ++ "/issues.json",
           .issues (iss.filter (fun i => !i.pull_request))),
         (backup_dir ++ "/" ++ name ++ "/" ++ timestamp ++ "/metadata" ++ "/pull_requests.json",
           .pulls prs)],
       "Error: " ++ e.s) := by
  simp [backup_repository]

/-- C3 (counterexample): `clone_repository` catches `GithubException`
and `GitCommandError` together and renders `str(e)` — so a caught domain
error from the hosting client whose remote-provided message is present
(`"Not Found"`) is NOT rendered as `"Error: " + message`, refuting the
claim for this handler. -/
theorem clone_repository_error_text_counterexample :
    (clone_repository (.error ⟨some "Not Found", "404 Client Error"⟩) true none "ws" []
        (.ok ())).2 = "Error: 404 Client Error" ∧
    ¬ ((clone_repository (.error ⟨some "Not Found", "404 Client Error"⟩) true none "ws" []
        (.ok ())).2 = "Error: Not Found") := by
  exact ⟨rfl, by decide⟩

/-- C3 (amended): the repository and automation handlers render a caught
domain error as `"Error: " + (remote-provided message, falling back to
str(e))`; the workspace and backup handlers render every caught error —
domain errors from the hosting client included — as `"Error: " + str(e)`. -/
theorem handlers_error_text_rendering (e : CaughtExc) (limit : Nat)
    (rn backup_dir timestamp ws_dir : String) (a : UpdateArgs) (use_ssh : Bool)
    (destination : Option String) (fs : List String)
    (bfs : List (String × BackupDoc)) (cloneRes : Except CaughtExc Unit) :
    list_repositories (.error e) limit = "Error: " ++ e.messageOrStr ∧
    list_issues (.error e) limit = "Error: " ++ e.messageOrStr ∧
    list_pull_requests (.error e) limit = "Error: " ++ e.messageOrStr ∧
    list_releases (.error e) limit = "Error: " ++ e.messageOrStr ∧
    list_workflow_runs (.error e) limit = "Error: " ++ e.messageOrStr ∧
    update_repository rn a (.error e) = ([], "Error: " ++ e.messageOrStr) ∧
    clone_repository (.error e) use_ssh destination ws_dir fs cloneRes =
      (fs, "Error: " ++ e.s) ∧
    backup_repository (.error e) cloneRes true backup_dir timestamp bfs =
      (bfs, "Error: " ++ e.s) := by
  exact ⟨rfl, rfl, rfl, rfl, rfl, rfl, rfl, rfl⟩
